/-
Verification of the microsandbox sandbox-orchestration and REPL subsystem.

This development shallowly embeds the relevant parts of the source:
  * `microsandbox-server/lib/handler.rs` — JSON-RPC dispatch, sandbox start/stop,
    name validation, readiness polling, portal port-mapping rewrite;
  * `microsandbox-portal/lib/handler.rs` — the portal-side JSON-RPC dispatcher;
  * `microsandbox-portal/lib/portal/repl/python.rs` — the subprocess REPL engine
    (stdout/stderr readers, end-of-execution marker protocol, eval loop, timeout);
  * `microsandbox-portal/lib/portal/repl/engine.rs` — `EngineHandle::eval` and the
    reactor.
Pure data flow is translated to Lean functions; effectful calls (filesystem,
subprocess, VMM) are parameters of the embedding recording whether each external
operation succeeds.  Concurrency in the REPL engine is embedded as a small-step
transition system whose agents are the stdout reader thread, the stderr reader
thread and the eval loop, with one step per critical section of the source.
-/
import Mathlib

set_option maxRecDepth 4096

/-! ## Basic data: streams, responses, errors (portal `repl/types.rs`)

The file `microsandbox-portal/lib/portal/repl/types.rs` is referenced by
`python.rs` and `engine.rs` but is not present in the source tree; its types are
reconstructed from every use site in those files (`Resp::Line{id,stream,text}`,
`Resp::Done{id}`, `Resp::Error{id,message}`, `Stream::Stdout`, `Stream::Stderr`,
`Line{stream,text}`, and the `EngineError` variants used there). -/

/-- Output stream tag (`Stream` in `repl/types.rs`, used at `python.rs:175,209`). -/
inductive OutStream where
  | stdout
  | stderr
deriving DecidableEq, Repr

/-- Response message on an eval response channel (`Resp` in `repl/types.rs`). -/
inductive Resp where
  | line (id : String) (stream : OutStream) (text : String)
  | done (id : String)
  | error (id : String) (message : String)
deriving DecidableEq, Repr

/-- A collected output line (`Line` in `repl/types.rs`, used in `engine.rs`). -/
structure Line where
  stream : OutStream
  text : String
deriving DecidableEq, Repr

/-- Engine errors (`EngineError` in `repl/types.rs`); the variants are those
constructed in `python.rs` (`Evaluation`, `Timeout`, `Unavailable`). -/
inductive EngineError where
  | evaluation (msg : String)
  | timeout (secs : Nat)
  | unavailable (msg : String)
deriving DecidableEq, Repr

/-! ## Server errors (`microsandbox-server/lib/error.rs` via `handler.rs`)

Only the two constructors used by the embedded handlers are needed. -/

/-- Server error kinds as raised in `handler.rs`
(`ServerError::ValidationError(InvalidInput _)` and `ServerError::InternalError _`). -/
inductive ServerError where
  | validationError (msg : String)
  | internalError (msg : String)
deriving DecidableEq, Repr

/-! ## Name validation (`handler.rs:942-1034`) -/

/-- Character test used by both validators
(`c.is_ascii_alphanumeric() || c == '-' || c == '_'`, `handler.rs:961,1013`). -/
def isValidNameChar (c : Char) : Bool :=
  c.isAlphanum || c == '-' || c == '_'

/-- `validate_sandbox_name` (`handler.rs:942-982`).  Length is byte length, as
Rust's `str::len` counts UTF-8 bytes. -/
def validate_sandbox_name (name : String) : Except ServerError Unit :=
  if name.isEmpty then
    .error (.validationError "Sandbox name cannot be empty")
  else if name.utf8ByteSize > 63 then
    .error (.validationError "Sandbox name cannot exceed 63 characters")
  else if !(name.data.all isValidNameChar) then
    .error (.validationError
      "Sandbox name can only contain alphanumeric characters, hyphens, or underscores")
  else if !(match name.data with
            | [] => false
            | c :: _ => c.isAlphanum) then
    .error (.validationError "Sandbox name must start with an alphanumeric character")
  else
    .ok ()

/-- `validate_namespace` (`handler.rs:985-1034`).  Identical to the sandbox-name
checks except for the explicit wildcard rejection placed between the length and
character checks. -/
def validate_namespace (ns : String) : Except ServerError Unit :=
  if ns.isEmpty then
    .error (.validationError "Namespace cannot be empty")
  else if ns.utf8ByteSize > 63 then
    .error (.validationError "Namespace cannot exceed 63 characters")
  else if ns = "*" then
    .error (.validationError "Wildcard namespace (*) is not valid for sandbox creation")
  else if !(ns.data.all isValidNameChar) then
    .error (.validationError
      "Namespace can only contain alphanumeric characters, hyphens, or underscores")
  else if !(match ns.data with
            | [] => false
            | c :: _ => c.isAlphanum) then
    .error (.validationError "Namespace must start with an alphanumeric character")
  else
    .ok ()

/-- The name grammar stated by the spec
(`[A-Za-z0-9][A-Za-z0-9_-]` with total length between 1 and 63 characters):
non-empty, at most 63 characters, only ASCII alphanumerics, dash and underscore,
and the first character alphanumeric.  Stated from the spec wording, to be
compared with the source validators. -/
def specValidName (s : String) : Prop :=
  s ≠ "" ∧ s.length ≤ 63 ∧ s.data.all isValidNameChar = true ∧
    (s.data.headD '*').isAlphanum = true

instance (s : String) : Decidable (specValidName s) := by
  unfold specValidName; infer_instance

/-! Auxiliary facts about UTF-8 byte size of valid names. -/

theorem val_le_of_isAlphanum (c : Char) (h : c.isAlphanum = true) : c.val ≤ 0x7F := by
  simp only [Char.isAlphanum, Char.isAlpha, Char.isUpper, Char.isLower,
    Char.isDigit, Bool.or_eq_true, Bool.and_eq_true, decide_eq_true_eq] at h
  rcases h with ((⟨h1, h2⟩ | ⟨h1, h2⟩) | ⟨h1, h2⟩)
  · simp only [UInt32.le_def, BitVec.le_def] at h2 ⊢
    have e1 : (UInt32.toBitVec 127).toNat = 127 := rfl
    have e2 : (UInt32.toBitVec 90).toNat = 90 := rfl
    omega
  · simp only [UInt32.le_def, BitVec.le_def] at h2 ⊢
    have e1 : (UInt32.toBitVec 127).toNat = 127 := rfl
    have e2 : (UInt32.toBitVec 122).toNat = 122 := rfl
    omega
  · simp only [UInt32.le_def, BitVec.le_def] at h2 ⊢
    have e1 : (UInt32.toBitVec 127).toNat = 127 := rfl
    have e2 : (UInt32.toBitVec 57).toNat = 57 := rfl
    omega

theorem utf8Size_eq_one_of_validChar (c : Char) (h : isValidNameChar c = true) :
    c.utf8Size = 1 := by
  have hval : c.val ≤ 0x7F := by
    simp only [isValidNameChar, Bool.or_eq_true, beq_iff_eq] at h
    rcases h with (h | h) | h
    · exact val_le_of_isAlphanum c h
    · subst h; decide
    · subst h; decide
  simp [Char.utf8Size, hval]

theorem utf8ByteSize_eq_length_of_valid (l : List Char)
    (h : l.all isValidNameChar = true) :
    String.utf8ByteSize ⟨l⟩ = l.length := by
  induction l with
  | nil => rfl
  | cons c cs ih =>
    simp only [List.all_cons, Bool.and_eq_true] at h
    have hgo : ∀ m : List Char, String.utf8ByteSize ⟨m⟩ = String.utf8ByteSize.go m := fun _ => rfl
    rw [hgo] at ih ⊢
    simp only [String.utf8ByteSize.go, List.length_cons]
    rw [ih h.2, utf8Size_eq_one_of_validChar c h.1]

theorem utf8ByteSize_eq_length_of_all (s : String)
    (h : s.data.all isValidNameChar = true) :
    s.utf8ByteSize = s.length := by
  cases s with
  | mk l => simpa [String.length] using utf8ByteSize_eq_length_of_valid l h

theorem ne_empty_of_data_cons (s : String) (c : Char) (cs : List Char)
    (hd : s.data = c :: cs) : s ≠ "" := by
  intro h
  subst h
  simp at hd

theorem isEmpty_false_of_ne (s : String) (h : s ≠ "") : s.isEmpty = false := by
  by_cases hb : s.isEmpty = true
  · exact absurd ((String.isEmpty_iff s).mp hb) h
  · simpa using hb

theorem data_eq_nil_iff (s : String) : s.data = [] ↔ s = "" := by
  cases s with
  | mk l =>
    constructor
    · intro h; simpa [String.ext_iff] using h
    · intro h; simpa [String.ext_iff] using h

theorem validate_sandbox_name_isOk (s : String) :
    (validate_sandbox_name s).isOk = true ↔ specValidName s := by
  unfold validate_sandbox_name
  constructor
  · intro h
    by_cases c1 : s.isEmpty = true
    · rw [if_pos c1] at h
      simp [Except.isOk, Except.toBool] at h
    · rw [if_neg c1] at h
      by_cases c2 : 63 < s.utf8ByteSize
      · rw [if_pos c2] at h
        simp [Except.isOk, Except.toBool] at h
      · rw [if_neg c2] at h
        by_cases c3 : s.data.all isValidNameChar = true
        · rw [if_neg (by simp [c3])] at h
          by_cases c4 : (match s.data with | [] => false | c :: _ => c.isAlphanum) = true
          · have hne : s ≠ "" := fun hs => c1 (by rw [hs]; decide)
            have hlen := utf8ByteSize_eq_length_of_all s c3
            refine ⟨hne, by omega, c3, ?_⟩
            cases hd : s.data with
            | nil => rw [hd] at c4; simp at c4
            | cons c cs =>
              rw [hd] at c4
              simpa [hd] using c4
          · rw [if_pos (by simpa using c4)] at h
            simp [Except.isOk, Except.toBool] at h
        · rw [if_pos (by simpa using c3)] at h
          simp [Except.isOk, Except.toBool] at h
  · rintro ⟨h1, h2, h3, h4⟩
    have hlen := utf8ByteSize_eq_length_of_all s h3
    have hemp : s.isEmpty = false := isEmpty_false_of_ne s h1
    have hnt : ¬(63 < s.utf8ByteSize) := by omega
    have hmatch : (match s.data with | [] => false | c :: _ => c.isAlphanum) = true := by
      cases hd : s.data with
      | nil => exact absurd ((data_eq_nil_iff s).mp hd) h1
      | cons c cs =>
        rw [hd] at h4
        simpa using h4
    rw [if_neg (by simp [hemp]), if_neg hnt, if_neg (by simp [h3]), if_neg (by simp [hmatch])]
    rfl

theorem validate_namespace_isOk (s : String) :
    (validate_namespace s).isOk = true ↔ specValidName s := by
  unfold validate_namespace
  constructor
  · intro h
    by_cases c1 : s.isEmpty = true
    · rw [if_pos c1] at h
      simp [Except.isOk, Except.toBool] at h
    · rw [if_neg c1] at h
      by_cases c2 : 63 < s.utf8ByteSize
      · rw [if_pos c2] at h
        simp [Except.isOk, Except.toBool] at h
      · rw [if_neg c2] at h
        by_cases cst : s = "*"
        · rw [if_pos cst] at h
          simp [Except.isOk, Except.toBool] at h
        · rw [if_neg cst] at h
          by_cases c3 : s.data.all isValidNameChar = true
          · rw [if_neg (by simp [c3])] at h
            by_cases c4 : (match s.data with | [] => false | c :: _ => c.isAlphanum) = true
            · have hne : s ≠ "" := fun hs => c1 (by rw [hs]; decide)
              have hlen := utf8ByteSize_eq_length_of_all s c3
              refine ⟨hne, by omega, c3, ?_⟩
              cases hd : s.data with
              | nil => rw [hd] at c4; simp at c4
              | cons c cs =>
                rw [hd] at c4
                simpa [hd] using c4
            · rw [if_pos (by simpa using c4)] at h
              simp [Except.isOk, Except.toBool] at h
          · rw [if_pos (by simpa using c3)] at h
            simp [Except.isOk, Except.toBool] at h
  · rintro ⟨h1, h2, h3, h4⟩
    have hlen := utf8ByteSize_eq_length_of_all s h3
    have hemp : s.isEmpty = false := isEmpty_false_of_ne s h1
    have hnt : ¬(63 < s.utf8ByteSize) := by omega
    have hstar : s ≠ "*" := by
      intro hs
      subst hs
      simp [isValidNameChar] at h4
    have hmatch : (match s.data with | [] => false | c :: _ => c.isAlphanum) = true := by
      cases hd : s.data with
      | nil => exact absurd ((data_eq_nil_iff s).mp hd) h1
      | cons c cs =>
        rw [hd] at h4
        simpa using h4
    rw [if_neg (by simp [hemp]), if_neg hnt, if_neg hstar, if_neg (by simp [h3]),
      if_neg (by simp [hmatch])]
    rfl

/-- C9: `sandbox.start` name validation passes exactly when the name is
non-empty, at most 63 characters, consists solely of ASCII alphanumerics,
dash and underscore, and begins with an alphanumeric character; and the
wildcard `*` is rejected by both the sandbox-name validator and the
namespace validator. -/
theorem C9_name_validation_grammar :
    (∀ s, (validate_sandbox_name s).isOk = true ↔ specValidName s) ∧
    (∀ s, (validate_namespace s).isOk = true ↔ specValidName s) ∧
    (validate_sandbox_name "*").isOk = false ∧
    (validate_namespace "*").isOk = false :=
  ⟨validate_sandbox_name_isOk, validate_namespace_isOk, by decide, by decide⟩

/-! ## Port allocator

`handler.rs` obtains a `PortManager` through `state.get_port_manager()`; the
`PortManager` implementation itself is not present in the tree (the checked-in
`state.rs` predates it), so it is modelled from the spec, §4.3. -/

/-- Modelled from the spec: the Port Allocator state of §4.3 (`PortManager`,
missing from the tree) — a free-port pool and a map from keys
`"namespace/sandbox"` to assigned ports. -/
structure PortManager where
  freePorts : List Nat
  assignments : List (String × Nat)
deriving DecidableEq, Repr

/-- Modelled from the spec: `assign(key) → port` (§4.3) — return the existing
assignment for `key` if there is one, otherwise move any free port into the
map; fails (returns `none`) only when the free pool is empty. -/
def PortManager.assign_port (pm : PortManager) (key : String) :
    Option (Nat × PortManager) :=
  match pm.assignments.lookup key with
  | some p => some (p, pm)
  | none =>
    match pm.freePorts with
    | [] => none
    | p :: rest => some (p, ⟨rest, (key, p) :: pm.assignments⟩)

/-- Modelled from the spec: `release(key)` (§4.3) — remove the mapping and
return its port to the free pool; idempotent (releasing an unassigned key is a
no-op). -/
def PortManager.release_port (pm : PortManager) (key : String) : PortManager :=
  match pm.assignments.lookup key with
  | some p => ⟨p :: pm.freePorts, pm.assignments.filter (fun kv => !(kv.1 == key))⟩
  | none => pm

/-! ## Portal port mapping rewrite (`handler.rs:571-594`) -/

/-- `DEFAULT_PORTAL_GUEST_PORT` is exported by `microsandbox-utils` from a file
not present in the tree.  Modelled from the spec: the guest portal port is the
fixed constant 4444 (§6 "Port range"; also `DEFAULT_PORT` in
`portal/bin/portal.rs`). -/
def DEFAULT_PORTAL_GUEST_PORT : Nat := 4444

/-- The suffix `":{guest_port}"` tested at `handler.rs:582`. -/
def portalSuffix : String := ":" ++ toString DEFAULT_PORTAL_GUEST_PORT

/-- `s.ends_with(":{guest_port}")` (`handler.rs:582`), on character lists;
for a pure-ASCII suffix Rust's UTF-8 byte-suffix test and the character-suffix
test agree. -/
def endsWithPortalSuffix (s : String) : Bool :=
  portalSuffix.data.isSuffixOf s.data

/-- The port mapping string `"{port}:{guest_port}"` built at `handler.rs:573`. -/
def portalMapping (port : Nat) : String :=
  toString port ++ ":" ++ toString DEFAULT_PORTAL_GUEST_PORT

/-- Minimal model of `serde_yaml::Value` as used by `sandbox_start_impl`:
strings, numbers, sequences, string-keyed mappings (the handler only ever uses
string keys), and one constructor standing for every other YAML value. -/
inductive Yaml where
  | str (s : String)
  | num (n : Nat)
  | seq (l : List Yaml)
  | map (m : List (String × Yaml))
  | other

/-- `serde_yaml::Mapping::insert` (index-map semantics): overwriting an
existing key keeps its position, a new key is appended at the end. -/
def yamlMapInsert (m : List (String × Yaml)) (k : String) (v : Yaml) :
    List (String × Yaml) :=
  match m with
  | [] => [(k, v)]
  | (k0, v0) :: rest =>
    if k0 = k then (k, v) :: rest else (k0, v0) :: yamlMapInsert rest k v

/-- The keep-test of the `retain` at `handler.rs:580-584`:
`p.as_str().map(|s| !s.ends_with(":{guest_port}")).unwrap_or(true)`. -/
def keepsPortEntry (p : Yaml) : Bool :=
  match p with
  | .str s => !(endsWithPortalSuffix s)
  | _ => true

/-- The ports rewrite of `sandbox_start_impl` applied to an existing ports
sequence (`handler.rs:577-587`): retain the entries that are not strings ending
in `":{guest_port}"`, then push `"{port}:{guest_port}"`. -/
def rewrite_ports (port : Nat) (l : List Yaml) : List Yaml :=
  l.filter keepsPortEntry ++ [.str (portalMapping port)]

/-- The predicate "this ports entry ends in `:PORTAL_GUEST_PORT`" from the
claim: a string entry whose character list ends with the suffix. -/
def isPortalEntry (p : Yaml) : Bool :=
  match p with
  | .str s => endsWithPortalSuffix s
  | _ => false

theorem endsWithPortalSuffix_portalMapping (port : Nat) :
    endsWithPortalSuffix (portalMapping port) = true := by
  unfold endsWithPortalSuffix portalMapping portalSuffix
  rw [List.isSuffixOf_iff_suffix]
  refine ⟨(toString port).data, ?_⟩
  simp [String.data_append, List.append_assoc]

theorem keepsPortEntry_portalMapping (port : Nat) :
    keepsPortEntry (.str (portalMapping port)) = false := by
  simp [keepsPortEntry, endsWithPortalSuffix_portalMapping]

theorem filter_keeps_rewrite (port : Nat) (l : List Yaml) :
    (rewrite_ports port l).filter keepsPortEntry = l.filter keepsPortEntry := by
  unfold rewrite_ports
  rw [List.filter_append, List.filter_filter]
  simp [keepsPortEntry_portalMapping, Bool.and_self]

theorem countP_isPortalEntry_filter (l : List Yaml) :
    (l.filter keepsPortEntry).countP isPortalEntry = 0 := by
  rw [List.countP_eq_zero]
  intro a ha
  rw [List.mem_filter] at ha
  have hk := ha.2
  cases a with
  | str s =>
    simp only [keepsPortEntry, Bool.not_eq_true'] at hk
    simp [isPortalEntry, hk]
  | num n => simp [isPortalEntry]
  | seq l => simp [isPortalEntry]
  | map m => simp [isPortalEntry]
  | other => simp [isPortalEntry]

/-- C7: the port-mapping rewrite of `sandbox.start` first removes every ports
entry whose string ends in `":PORTAL_GUEST_PORT"` and then appends
`"{assigned}:PORTAL_GUEST_PORT"`; consequently it is idempotent for a fixed
assigned port, and after any rewrite exactly one entry ends in the portal
suffix. -/
theorem C7_rewrite_ports_idempotent :
    (∀ port l, rewrite_ports port (rewrite_ports port l) = rewrite_ports port l) ∧
    (∀ port l, (rewrite_ports port l).countP isPortalEntry = 1) := by
  constructor
  · intro port l
    have h : rewrite_ports port (rewrite_ports port l)
        = (rewrite_ports port l).filter keepsPortEntry ++ [.str (portalMapping port)] := rfl
    rw [h, filter_keeps_rewrite]
    rfl
  · intro port l
    unfold rewrite_ports
    rw [List.countP_append, countP_isPortalEntry_filter]
    simp [List.countP_cons, isPortalEntry, endsWithPortalSuffix_portalMapping]

/-! ## Sandbox start / stop (`handler.rs:298-764`)

The request payload types (`SandboxStartParams`, `SandboxStopParams`) live in a
`payload.rs` revision not present in the tree; their fields are reconstructed
from every use site in `sandbox_start_impl` / `sandbox_stop_impl`
(`params.sandbox`, `params.namespace`, `params.config` and the config fields
read at `handler.rs:427-536`). -/

/-- Request-supplied sandbox configuration (fields as read by
`sandbox_start_impl`, `handler.rs:427-536`). -/
structure SandboxConfigReq where
  image : Option String := none
  memory : Option Nat := none
  cpus : Option Nat := none
  volumes : List String := []
  ports : List String := []
  envs : List String := []
  depends_on : List String := []
  workdir : Option String := none
  shell : Option String := none
  scripts : List (String × String) := []
  exec : Option String := none

/-- Parameters of `sandbox.start` (`sandbox`, `namespace`, optional `config`). -/
structure SandboxStartParams where
  sandbox : String
  ns : String
  config : Option SandboxConfigReq := none

/-- Parameters of `sandbox.stop` (`sandbox`, `namespace`). -/
structure SandboxStopParams where
  sandbox : String
  ns : String

/-- `DEFAULT_CONFIG` (`microsandbox-core/lib/config/defaults.rs:29`, the same
constant re-exported by `microsandbox-utils`): a YAML document whose single
top-level key `sandboxes` maps to an empty sequence. -/
def DEFAULT_CONFIG_YAML : Yaml := .map [("sandboxes", .seq [])]

/-- Outcome of the readiness polling performed after `orchestra::up`
(`handler.rs:631-661`): the sandbox was seen `running`, the status polling
itself failed with an error message, or the poll timeout elapsed. -/
inductive PollOutcome where
  | running
  | pollFailed (msg : String)
  | timedOut

/-- Results of the external operations performed by `sandbox_start_impl`, in
program order: directory creation and environment initialization
(`handler.rs:312-329`), existence and parse of the on-disk config
(`handler.rs:337-399`), the default-config write (`handler.rs:390`), the final
config write (`handler.rs:600`), `orchestra::up` (`handler.rs:605`), and the
readiness poll (`handler.rs:631`). -/
structure StartWorld where
  namespaceDirExists : Bool
  createDirOk : Bool
  menvInitOk : Bool
  configFileExists : Bool
  /-- Parse result of the existing on-disk config; `none` means a parse error. -/
  configFileYaml : Option Yaml
  writeDefaultOk : Bool
  writeConfigOk : Bool
  upOk : Bool
  pollOutcome : PollOutcome

/-- The `has_config_in_request` test
(`params.config.as_ref().and_then(|c| c.image.as_ref()).is_some()`,
`handler.rs:332-336`). -/
def hasConfigInRequest (params : SandboxStartParams) : Bool :=
  (params.config.bind (fun c => c.image)).isSome

/-- Construction of the per-sandbox mapping inserted into `sandboxes`
(`handler.rs:427-544`): each present optional field and each non-empty list
field is inserted in program order. -/
def buildSandboxMap (c : SandboxConfigReq) : List (String × Yaml) := Id.run do
  let mut m : List (String × Yaml) := []
  if let some image := c.image then
    m := yamlMapInsert m "image" (.str image)
  if let some memory := c.memory then
    m := yamlMapInsert m "memory" (.num memory)
  if let some cpus := c.cpus then
    m := yamlMapInsert m "cpus" (.num cpus)
  if c.volumes ≠ [] then
    m := yamlMapInsert m "volumes" (.seq (c.volumes.map Yaml.str))
  if c.ports ≠ [] then
    m := yamlMapInsert m "ports" (.seq (c.ports.map Yaml.str))
  if c.envs ≠ [] then
    m := yamlMapInsert m "envs" (.seq (c.envs.map Yaml.str))
  if c.depends_on ≠ [] then
    m := yamlMapInsert m "depends_on" (.seq (c.depends_on.map Yaml.str))
  if let some workdir := c.workdir then
    m := yamlMapInsert m "workdir" (.str workdir)
  if let some shell := c.shell then
    m := yamlMapInsert m "shell" (.str shell)
  if c.scripts ≠ [] then
    m := yamlMapInsert m "scripts"
      (.map (c.scripts.foldl (fun acc kv => yamlMapInsert acc kv.1 (.str kv.2)) []))
  if let some ex := c.exec then
    m := yamlMapInsert m "exec" (.str ex)
  return m

/-- The poll timeout chosen at `handler.rs:617-629`: 180 s when the request
config carries an image (potential first-time pull), otherwise 60 s. -/
def pollTimeoutSecs (params : SandboxStartParams) : Nat :=
  if (match params.config with
      | some c => c.image.isSome
      | none => false) then 180 else 60

/-- `POLL_INTERVAL` of `poll_sandbox_until_running` (`handler.rs:670`), in
milliseconds. -/
def POLL_INTERVAL_MS : Nat := 20

/-- `MAX_ATTEMPTS` of `poll_sandbox_until_running` (`handler.rs:671`). -/
def MAX_ATTEMPTS : Nat := 2500

/-- The match on the readiness-poll outcome at the tail of
`sandbox_start_impl` (`handler.rs:633-661`): every outcome is mapped to `Ok`
with the corresponding message; timeout yields the still-initializing
warning. -/
def startFinish (sandbox : String) (outcome : PollOutcome) : Except ServerError String :=
  match outcome with
  | .running => .ok ("Sandbox " ++ sandbox ++ " started successfully")
  | .pollFailed e =>
    .ok ("Sandbox " ++ sandbox ++ " was started, but could not verify it is running: " ++ e)
  | .timedOut =>
    .ok ("Sandbox " ++ sandbox
      ++ " was started, but timed out waiting for it to be fully running. It may still be initializing.")

/-- `serde_yaml::Value::get` on our model: key lookup on mappings, `none` on
everything else. -/
def Yaml.get? : Yaml → String → Option Yaml
  | .map m, k => m.lookup k
  | _, _ => none

/-- `sandbox_start_impl` (`handler.rs:299-662`) over a `StartWorld` recording
the outcomes of its external operations, threading the port manager
explicitly.  Message texts are reproduced up to punctuation (quoting
apostrophes are elided); no theorem below depends on them. -/
def sandbox_start_impl (w : StartWorld) (params : SandboxStartParams)
    (pm : PortManager) : Except ServerError String × PortManager := Id.run do
  -- handler.rs:300-302: validate names
  if let .error e := validate_sandbox_name params.sandbox then
    return (.error e, pm)
  if let .error e := validate_namespace params.ns then
    return (.error e, pm)
  -- handler.rs:312-329: create the namespace directory and initialize the env
  if !w.namespaceDirExists then
    if !w.createDirOk then
      return (.error (.internalError "Failed to create namespace directory"), pm)
    if !w.menvInitOk then
      return (.error (.internalError "Failed to initialize microsandbox environment"), pm)
  -- handler.rs:331-346: check a usable configuration exists
  let has_config_in_request := hasConfigInRequest params
  let has_existing_config_file := w.configFileExists
  if !has_config_in_request && !has_existing_config_file then
    return (.error (.validationError
      ("No configuration provided and no existing configuration found for sandbox "
        ++ params.sandbox)), pm)
  -- handler.rs:348-400: read or initialize the configuration
  let mut config_yaml : Yaml := .other
  if has_existing_config_file then
    match w.configFileYaml with
    | none => return (.error (.internalError "Failed to parse config file"), pm)
    | some y =>
      config_yaml := y
      if !has_config_in_request then
        let has_sandbox_config :=
          (match y.get? "sandboxes" with
           | some sb => (sb.get? params.sandbox).isSome
           | none => false)
        if !has_sandbox_config then
          return (.error (.validationError
            ("Sandbox " ++ params.sandbox ++ " not found in existing configuration")), pm)
  else
    if !has_config_in_request then
      return (.error (.validationError
        "No configuration provided and no existing configuration file"), pm)
    if !w.writeDefaultOk then
      return (.error (.internalError "Failed to create config file"), pm)
    config_yaml := DEFAULT_CONFIG_YAML
  -- handler.rs:402-424: ensure the document is a mapping with a `sandboxes`
  -- mapping
  let mut config_map : List (String × Yaml) :=
    match config_yaml with
    | .map m => m
    | _ => []
  if (config_map.lookup "sandboxes").isNone then
    config_map := yamlMapInsert config_map "sandboxes" (.map [])
  let mut sandboxes_map : List (String × Yaml) :=
    match config_map.lookup "sandboxes" with
    | some (.map m) => m
    | _ => []
  -- handler.rs:426-544: merge the request-supplied sandbox configuration
  if let some c := params.config then
    if c.image.isSome then
      sandboxes_map := yamlMapInsert sandboxes_map params.sandbox (.map (buildSandboxMap c))
  -- handler.rs:546-555: assign a portal port
  let sandbox_key := params.ns ++ "/" ++ params.sandbox
  match pm.assign_port sandbox_key with
  | none =>
    return (.error (.internalError "Failed to assign portal port"), pm)
  | some (port, pm2) =>
    -- handler.rs:557-569: fetch this sandbox entry from the merged config
    match sandboxes_map.lookup params.sandbox with
    | none =>
      return (.error (.internalError
        ("Sandbox " ++ params.sandbox ++ " not found in configuration")), pm2)
    | some sbv =>
      match sbv with
      | .map sandbox_config =>
        -- handler.rs:571-594: portal port mapping rewrite
        let sandbox_config2 :=
          match sandbox_config.lookup "ports" with
          | some (.seq pl) =>
            yamlMapInsert sandbox_config "ports" (.seq (rewrite_ports port pl))
          | some _ => sandbox_config
          | none =>
            yamlMapInsert sandbox_config "ports" (.seq [.str (portalMapping port)])
        let sandboxes_map2 :=
          yamlMapInsert sandboxes_map params.sandbox (.map sandbox_config2)
        let _config_final : Yaml :=
          .map (yamlMapInsert config_map "sandboxes" (.map sandboxes_map2))
        -- handler.rs:596-602: write the updated config back
        if !w.writeConfigOk then
          return (.error (.internalError "Failed to write config file"), pm2)
        -- handler.rs:604-614: launch through orchestra::up
        if !w.upOk then
          return (.error (.internalError
            ("Failed to start sandbox " ++ params.sandbox)), pm2)
        -- handler.rs:616-661: readiness polling; every outcome is a success
        return (startFinish params.sandbox w.pollOutcome, pm2)
      | _ =>
        return (.error (.internalError
          ("Sandbox " ++ params.sandbox ++ " configuration is not a mapping")), pm2)

/-- Results of the external operations performed by `sandbox_stop_impl`
(`handler.rs:707-764`): namespace directory existence, config file existence,
and the `orchestra::down` outcome. -/
structure StopWorld where
  namespaceDirExists : Bool
  configFileExists : Bool
  downOk : Bool

/-- `sandbox_stop_impl` (`handler.rs:707-764`). -/
def sandbox_stop_impl (w : StopWorld) (params : SandboxStopParams)
    (pm : PortManager) : Except ServerError String × PortManager := Id.run do
  -- handler.rs:708-710: validate names
  if let .error e := validate_sandbox_name params.sandbox then
    return (.error e, pm)
  if let .error e := validate_namespace params.ns then
    return (.error e, pm)
  let sandbox_key := params.ns ++ "/" ++ params.sandbox
  -- handler.rs:720-728: the namespace directory must exist
  if !w.namespaceDirExists then
    return (.error (.validationError
      ("Namespace directory " ++ params.ns ++ " does not exist")), pm)
  -- handler.rs:730-739: the config file must exist
  if !w.configFileExists then
    return (.error (.validationError
      ("Configuration file not found for namespace " ++ params.ns)), pm)
  -- handler.rs:741-750: stop through orchestra::down; an error propagates here
  if !w.downOk then
    return (.error (.internalError
      ("Failed to stop sandbox " ++ params.sandbox)), pm)
  -- handler.rs:752-758: release the assigned port (only reached on success)
  let pm2 := pm.release_port sandbox_key
  return (.ok ("Sandbox " ++ params.sandbox ++ " stopped successfully"), pm2)

/-- A sandbox status row as returned by `orchestra::status`
(name and running flag, the fields read at `handler.rs:684-693`). -/
structure OrchStatus where
  name : String
  running : Bool

/-- The attempt loop of `poll_sandbox_until_running` (`handler.rs:673-703`),
with the remaining attempts as fuel; `statuses n` is the result of the status
query on attempt `n`. -/
def pollLoop (sandbox_name : String)
    (statuses : Nat → Except String (List OrchStatus)) :
    Nat → Nat → Except ServerError Unit
  | 0, _ =>
    .error (.internalError
      ("Exceeded maximum attempts to verify sandbox " ++ sandbox_name ++ " is running"))
  | fuel + 1, attempt =>
    match statuses attempt with
    | .error e => .error (.internalError ("Failed to get sandbox status: " ++ e))
    | .ok sts =>
      match sts.find? (fun s => s.name == sandbox_name) with
      | some st =>
        if st.running then .ok ()
        else pollLoop sandbox_name statuses fuel (attempt + 1)
      | none => pollLoop sandbox_name statuses fuel (attempt + 1)

/-- `poll_sandbox_until_running` (`handler.rs:665-704`): up to `MAX_ATTEMPTS`
status queries, sleeping `POLL_INTERVAL_MS` between attempts. -/
def poll_sandbox_until_running (sandbox_name : String)
    (statuses : Nat → Except String (List OrchStatus)) : Except ServerError Unit :=
  pollLoop sandbox_name statuses MAX_ATTEMPTS 1

/-- C1: contrary to the claim, `sandbox_start_impl` does not release the
assigned portal port on the failure paths after port assignment: with one free
port 6000, a failing `orchestra::up`, a failing config write, and a sandbox
entry that is not a mapping each return an error while the port stays assigned
to `"ns1/sb1"` and the free pool stays empty. -/
theorem C1_start_failure_paths_keep_port_assigned :
    (sandbox_start_impl
      { namespaceDirExists := true, createDirOk := true, menvInitOk := true,
        configFileExists := false, configFileYaml := none,
        writeDefaultOk := true, writeConfigOk := true, upOk := false,
        pollOutcome := .running }
      { sandbox := "sb1", ns := "ns1", config := some { image := some "alpine" } }
      ⟨[6000], []⟩
      = (.error (.internalError "Failed to start sandbox sb1"),
         ⟨[], [("ns1/sb1", 6000)]⟩)) ∧
    (sandbox_start_impl
      { namespaceDirExists := true, createDirOk := true, menvInitOk := true,
        configFileExists := false, configFileYaml := none,
        writeDefaultOk := true, writeConfigOk := false, upOk := true,
        pollOutcome := .running }
      { sandbox := "sb1", ns := "ns1", config := some { image := some "alpine" } }
      ⟨[6000], []⟩
      = (.error (.internalError "Failed to write config file"),
         ⟨[], [("ns1/sb1", 6000)]⟩)) ∧
    (sandbox_start_impl
      { namespaceDirExists := true, createDirOk := true, menvInitOk := true,
        configFileExists := true,
        configFileYaml := some (.map [("sandboxes", .map [("sb1", .other)])]),
        writeDefaultOk := true, writeConfigOk := true, upOk := true,
        pollOutcome := .running }
      { sandbox := "sb1", ns := "ns1", config := none }
      ⟨[6000], []⟩
      = (.error (.internalError "Sandbox sb1 configuration is not a mapping"),
         ⟨[], [("ns1/sb1", 6000)]⟩)) := by
  refine ⟨rfl, rfl, rfl⟩

/-- C2: contrary to the claim, `sandbox_stop_impl` releases the portal port
only after `orchestra::down` succeeds: when stopping fails the error returns
with the port still assigned, and only the successful path returns the port to
the free pool. -/
theorem C2_stop_releases_port_only_on_success :
    (sandbox_stop_impl
      { namespaceDirExists := true, configFileExists := true, downOk := false }
      { sandbox := "sb1", ns := "ns1" }
      ⟨[], [("ns1/sb1", 6000)]⟩
      = (.error (.internalError "Failed to stop sandbox sb1"),
         ⟨[], [("ns1/sb1", 6000)]⟩)) ∧
    (sandbox_stop_impl
      { namespaceDirExists := true, configFileExists := true, downOk := true }
      { sandbox := "sb1", ns := "ns1" }
      ⟨[], [("ns1/sb1", 6000)]⟩
      = (.ok "Sandbox sb1 stopped successfully", ⟨[6000], []⟩)) := by
  refine ⟨rfl, rfl⟩

/-- C8: the readiness poll runs at a 20 ms cadence with 2500 attempts; the
poll timeout is 180 s when the request config carries an image and 60 s
otherwise; and every poll outcome — including the elapsed timeout — maps to a
success result, the timeout producing the still-initializing warning (never a
readiness-timeout error). -/
theorem C8_readiness_timeout_nonfatal :
    POLL_INTERVAL_MS = 20 ∧ MAX_ATTEMPTS = 2500 ∧
    (∀ params, pollTimeoutSecs params =
      if (params.config.bind (fun c => c.image)).isSome then 180 else 60) ∧
    (∀ sandbox o, (startFinish sandbox o).isOk = true) ∧
    (∀ sandbox, startFinish sandbox .timedOut =
      .ok ("Sandbox " ++ sandbox
        ++ " was started, but timed out waiting for it to be fully running. It may still be initializing.")) ∧
    (∀ o, ((sandbox_start_impl
      { namespaceDirExists := true, createDirOk := true, menvInitOk := true,
        configFileExists := false, configFileYaml := none,
        writeDefaultOk := true, writeConfigOk := true, upOk := true,
        pollOutcome := o }
      { sandbox := "sb1", ns := "ns1", config := some { image := some "alpine" } }
      ⟨[6000], []⟩).1).isOk = true) := by
  refine ⟨rfl, rfl, ?_, ?_, ?_, ?_⟩
  · intro params
    cases hc : params.config with
    | none => simp [pollTimeoutSecs, hc]
    | some c => cases hi : c.image <;> simp [pollTimeoutSecs, hc, hi]
  · intro sandbox o
    cases o <;> rfl
  · intro sandbox
    rfl
  · intro o
    cases o <;> rfl

/-! ## JSON-RPC dispatch (server `handler.rs:62-159`, portal `handler.rs:28-83`)

The payload types (`JsonRpcRequest`, `JSONRPC_VERSION`) live in `payload.rs`
revisions not present in the tree; the fields used by dispatch are
reconstructed from the two dispatchers. -/

/-- `JSONRPC_VERSION` as checked by both dispatchers. -/
def JSONRPC_VERSION : String := "2.0"

/-- The dispatch-relevant fields of a JSON-RPC request. -/
structure JsonRpcRequest where
  jsonrpc : String
  method : String

/-- The branch the server dispatcher takes (`handler.rs:69-158`). -/
inductive ServerDispatch where
  | invalidVersion
  | sandboxStart
  | sandboxStop
  | sandboxMetricsGet
  | forwardToPortal (method : String)
  | methodNotFound (code : Int) (message : String)

/-- The server `json_rpc_handler` dispatch (`handler.rs:62-159`):
`sandbox.repl.run` and `sandbox.command.run` are forwarded to the portal
(`handler.rs:141-145`); unknown methods get `-32601`. -/
def server_dispatch (req : JsonRpcRequest) : ServerDispatch :=
  if req.jsonrpc ≠ JSONRPC_VERSION then .invalidVersion
  else
    match req.method with
    | "sandbox.start" => .sandboxStart
    | "sandbox.stop" => .sandboxStop
    | "sandbox.metrics.get" => .sandboxMetricsGet
    | "sandbox.repl.run" => .forwardToPortal req.method
    | "sandbox.command.run" => .forwardToPortal req.method
    | m => .methodNotFound (-32601) ("Method not found: " ++ m)

/-- The branch the portal dispatcher takes (portal `handler.rs:50-82`). -/
inductive PortalDispatch where
  | invalidVersion
  | sandboxRun
  | sandboxCommandRun
  | methodNotFound (code : Int) (message : String)

/-- The portal `json_rpc_handler` dispatch (portal `handler.rs:28-83`): the
only method branches are `sandbox.run` (`sandbox_run_impl`) and
`sandbox.command.run` (`sandbox_command_run_impl`); every other method —
including `sandbox.repl.run` — falls to the `-32601` arm. -/
def portal_json_rpc_handler (req : JsonRpcRequest) : PortalDispatch :=
  if req.jsonrpc ≠ JSONRPC_VERSION then .invalidVersion
  else
    match req.method with
    | "sandbox.run" => .sandboxRun
    | "sandbox.command.run" => .sandboxCommandRun
    | m => .methodNotFound (-32601) ("Method not found: " ++ m)

/-- C3: contrary to the claim, a JSON-RPC 2.0 request for `sandbox.repl.run` —
the very method the server dispatcher forwards to the portal — is answered by
the portal dispatcher with a `-32601` method-not-found error instead of being
routed to a REPL-run handler. -/
theorem C3_portal_rejects_repl_run :
    server_dispatch { jsonrpc := "2.0", method := "sandbox.repl.run" }
      = .forwardToPortal "sandbox.repl.run" ∧
    portal_json_rpc_handler { jsonrpc := "2.0", method := "sandbox.repl.run" }
      = .methodNotFound (-32601) "Method not found: sandbox.repl.run" :=
  ⟨rfl, rfl⟩

/-! ## `EngineHandle::eval` (`repl/engine.rs:103-163`) -/

/-- The response-processing task of `EngineHandle::eval`
(`engine.rs:127-151`): forward each `Line`; stop at the first `Done`; on
`Error` emit a stderr line `"Error: {message}"` and stop. -/
def processResps : List Resp → List Line
  | [] => []
  | .line _ stream text :: rest => ⟨stream, text⟩ :: processResps rest
  | .done _ :: _ => []
  | .error _ message :: _ => [⟨.stderr, "Error: " ++ message⟩]

/-- `EngineHandle::eval` (`engine.rs:103-163`) over the stream of responses
delivered for this execution: the only error return is the command channel
being closed (`engine.rs:116-124`); otherwise the collected lines are returned
as `Ok`. -/
def EngineHandle.eval (cmdChannelOpen : Bool) (resps : List Resp) :
    Except EngineError (List Line) :=
  if cmdChannelOpen then .ok (processResps resps)
  else .error (.unavailable "Reactor thread not available")

/-- Terminal message test (`Done` or `Error`). -/
def isTerminal : Resp → Bool
  | .done _ => true
  | .error _ _ => true
  | _ => false

/-- The `Line`s among a list of responses, in order. -/
def linesOf (l : List Resp) : List Line :=
  l.filterMap fun r =>
    match r with
    | .line _ s t => some ⟨s, t⟩
    | _ => none

theorem processResps_of_error_terminal (pre : List Resp) (id msg : String)
    (rest : List Resp) (hfree : ∀ r ∈ pre, isTerminal r = false) :
    processResps (pre ++ .error id msg :: rest)
      = linesOf pre ++ [⟨.stderr, "Error: " ++ msg⟩] := by
  induction pre with
  | nil => rfl
  | cons r pre ih =>
    cases r with
    | line i s t =>
      have hft : linesOf (Resp.line i s t :: pre) = ⟨s, t⟩ :: linesOf pre := by
        simp [linesOf]
      rw [List.cons_append]
      show Line.mk s t :: processResps (pre ++ .error id msg :: rest) = _
      rw [ih (fun r hr => hfree r (List.mem_cons_of_mem _ hr)), hft]
      rfl
    | done i =>
      have := hfree _ (List.mem_cons_self _ _)
      simp [isTerminal] at this
    | error i m =>
      have := hfree _ (List.mem_cons_self _ _)
      simp [isTerminal] at this

/-- C10: `EngineHandle::eval` returns `Ok` with the collected lines even when
the evaluation ends with a terminal `Error`: the error surfaces only as the
final collected line, on stream stderr, with text `"Error: "` followed by the
message; `eval` returns `Err` exactly when the reactor command channel is
unavailable. -/
theorem C10_eval_error_surfaces_as_final_stderr_line :
    (∀ resps, EngineHandle.eval false resps
      = .error (.unavailable "Reactor thread not available")) ∧
    (∀ resps, (EngineHandle.eval true resps).isOk = true) ∧
    (∀ pre id msg rest, (∀ r ∈ pre, isTerminal r = false) →
      EngineHandle.eval true (pre ++ .error id msg :: rest)
        = .ok (linesOf pre ++ [⟨.stderr, "Error: " ++ msg⟩])) := by
  refine ⟨fun _ => rfl, fun _ => rfl, ?_⟩
  intro pre id msg rest hfree
  show Except.ok (processResps (pre ++ .error id msg :: rest)) = _
  rw [processResps_of_error_terminal pre id msg rest hfree]

/-- Witness for C10 at a concrete stream: one forwarded line, then a terminal
`Error`; the result is `Ok` with the error as the final stderr line. -/
theorem C10_eval_error_surfaces_as_final_stderr_line_witness :
    (∀ r ∈ [Resp.line "a" .stdout "x"], isTerminal r = false) ∧
    EngineHandle.eval true
        ([Resp.line "a" .stdout "x"] ++ .error "a" "boom" :: [.line "a" .stdout "late"])
      = .ok [⟨.stdout, "x"⟩, ⟨.stderr, "Error: boom"⟩] := by
  refine ⟨by decide, ?_⟩
  exact C10_eval_error_surfaces_as_final_stderr_line.2.2
    [Resp.line "a" .stdout "x"] "a" "boom" [.line "a" .stdout "late"] (by decide)

/-! ## Subprocess REPL engine, one eval (`repl/python.rs:130-335`)

The engine runs three concurrent agents: the stdout reader thread
(`python.rs:138-188`), the stderr reader thread (`python.rs:195-221`), and the
eval-request handler inside the command loop (`python.rs:233-320`).  They share
the `execution_status` slot behind a mutex.  The embedding is a small-step
transition system with one step per critical section of the source (each
reader sends while holding the lock, so its test and send form one step); the
scheduler choosing the step order stands for the tokio scheduler and the OS
threads. -/

/-- Rust `str::trim` (`line.trim()` at `python.rs:155`), embedded executably
on character lists: strip leading and trailing whitespace. -/
def strTrim (s : String) : String :=
  ⟨((s.data.dropWhile Char.isWhitespace).reverse.dropWhile Char.isWhitespace).reverse⟩

/-- The current-execution slot (`ExecutionStatus`, `python.rs:52-57`); the
response channel is represented by the `sent` message log of the state. -/
structure ExecutionStatus where
  id : String
  eoe_marker : String
  completed : Bool

/-- Control point of the eval-request handler (`python.rs:255-319`): waiting on
the completed flag, about to send the timeout error (`python.rs:296-300`),
about to clear the slot (`python.rs:312-316`, carrying the result of the
execution block), or finished (result delivered on `done_tx`). -/
inductive LoopPhase where
  | waiting
  | sendTimeoutError
  | clearing (result : Except EngineError Unit)
  | finished (result : Except EngineError Unit)

/-- State of one eval: the slot, the lines not yet consumed by each reader,
the handler control point, the request id and timeout, the log of messages
sent on `resp_tx`, and whether the Python process has been killed
(`python.rs:332-334`, only on command-loop exit). -/
structure EngineState where
  slot : Option ExecutionStatus
  stdoutPending : List String
  stderrPending : List String
  phase : LoopPhase
  reqId : String
  timeoutSecs : Option Nat
  sent : List Resp
  processKilled : Bool

/-- One step of one agent. -/
inductive EngineStep where
  | readStdout
  | readStdoutDropped
  | readStderr
  | observeCompleted
  | timeoutElapsed
  | sendErrorMsg
  | clearSlot
  | shutdownBreak

/-- The transition function; `none` when the step is not enabled.

* `readStdout` (`python.rs:146-180`): consume the next stdout line; with the
  slot occupied, a line whose trimmed content equals the marker sets
  `completed` and sends `Done{id}` (all inside the lock, `python.rs:151-167`),
  any other line is forwarded as `Line{id, Stdout, line}` (`python.rs:170-179`);
  with the slot empty the line is consumed silently.
* `readStdoutDropped`: the race in which the marker test at `python.rs:151-167`
  saw the slot occupied with a non-marker line but the eval loop cleared the
  slot before the second lock at `python.rs:171`: the line is consumed without
  being forwarded.
* `readStderr` (`python.rs:203-213`): forward the next stderr line as
  `Line{id, Stderr, line}` when the slot is occupied, else consume silently.
* `observeCompleted` (`python.rs:280-288`): the wait future sees
  `completed = true`; the execution block returns `Ok`.
* `timeoutElapsed` (`python.rs:294`): the timeout fires while the handler is
  still waiting (possible whenever a timeout was supplied).
* `sendErrorMsg` (`python.rs:296-300`): send
  `Error{id, "Execution timed out after N seconds"}`; the execution block
  returns `Err(Timeout(N))`.
* `clearSlot` (`python.rs:312-316`): set the slot to `None` and deliver the
  result.
* `shutdownBreak` (`python.rs:226-231`, `python.rs:332-334`): after the eval
  finished, a shutdown breaks the command loop and kills the process. -/
def stepEngine (s : EngineState) : EngineStep → Option EngineState
  | .readStdout =>
    match s.stdoutPending with
    | [] => none
    | l :: rest =>
      match s.slot with
      | some st =>
        if strTrim l == st.eoe_marker then
          some { s with stdoutPending := rest,
                        slot := some { st with completed := true },
                        sent := s.sent ++ [.done st.id] }
        else
          some { s with stdoutPending := rest,
                        sent := s.sent ++ [.line st.id .stdout l] }
      | none => some { s with stdoutPending := rest }
  | .readStdoutDropped =>
    match s.stdoutPending with
    | [] => none
    | l :: rest =>
      match s.slot with
      | some st =>
        if strTrim l == st.eoe_marker then none
        else some { s with stdoutPending := rest }
      | none => none
  | .readStderr =>
    match s.stderrPending with
    | [] => none
    | l :: rest =>
      match s.slot with
      | some st =>
        some { s with stderrPending := rest,
                      sent := s.sent ++ [.line st.id .stderr l] }
      | none => some { s with stderrPending := rest }
  | .observeCompleted =>
    match s.phase, s.slot with
    | .waiting, some st =>
      if st.completed then some { s with phase := .clearing (.ok ()) } else none
    | _, _ => none
  | .timeoutElapsed =>
    match s.phase, s.timeoutSecs with
    | .waiting, some _ => some { s with phase := .sendTimeoutError }
    | _, _ => none
  | .sendErrorMsg =>
    match s.phase, s.timeoutSecs with
    | .sendTimeoutError, some n =>
      some { s with
        sent := s.sent ++
          [.error s.reqId ("Execution timed out after " ++ toString n ++ " seconds")],
        phase := .clearing (.error (.timeout n)) }
    | _, _ => none
  | .clearSlot =>
    match s.phase with
    | .clearing r => some { s with slot := none, phase := .finished r }
    | _ => none
  | .shutdownBreak =>
    match s.phase with
    | .finished _ => some { s with processKilled := true }
    | _ => none

/-- Run a schedule of steps; `none` if some step is not enabled. -/
def runSteps (l : List EngineStep) (s : EngineState) : Option EngineState :=
  match l with
  | [] => some s
  | st :: rest =>
    match stepEngine s st with
    | some s2 => runSteps rest s2
    | none => none

/-- The state right after the handler installs the execution slot
(`python.rs:244-253`): slot occupied with `completed = false`, nothing sent,
process alive; `outLs`/`errLs` are the lines the Python process will produce
on each stream for this eval. -/
def initEval (id marker : String) (timeout : Option Nat)
    (outLs errLs : List String) : EngineState :=
  { slot := some { id := id, eoe_marker := marker, completed := false },
    stdoutPending := outLs, stderrPending := errLs,
    phase := .waiting, reqId := id, timeoutSecs := timeout,
    sent := [], processKilled := false }

/-- Number of `Done` messages in a log. -/
def doneCount (msgs : List Resp) : Nat :=
  msgs.countP fun r => match r with | .done _ => true | _ => false

/-- Number of `Error` messages in a log. -/
def errorCount (msgs : List Resp) : Nat :=
  msgs.countP fun r => match r with | .error _ _ => true | _ => false

/-- How many more `Error` messages the handler can still send from a phase. -/
def errBudget : LoopPhase → Nat
  | .waiting => 1
  | .sendTimeoutError => 1
  | .clearing _ => 0
  | .finished _ => 0

/-- Lines whose trimmed content equals the marker. -/
def markersLeft (m : String) (l : List String) : Nat :=
  l.countP fun ln => strTrim ln == m

/-- Inductive invariant of the one-eval transition system: the slot (when
occupied) still carries this eval's id and marker; `Done`s sent plus marker
lines still pending never exceed one; `Error`s sent plus the handler's
remaining error budget never exceed one; and no forwarded stdout line trims to
the marker. -/
structure EngineInv (id m : String) (s : EngineState) : Prop where
  slotId : ∀ st, s.slot = some st → st.id = id ∧ st.eoe_marker = m
  doneBound : doneCount s.sent + markersLeft m s.stdoutPending ≤ 1
  errBound : errorCount s.sent + errBudget s.phase ≤ 1
  stdoutClean : ∀ i t, Resp.line i OutStream.stdout t ∈ s.sent → strTrim t ≠ m

theorem doneCount_append (a b : List Resp) :
    doneCount (a ++ b) = doneCount a + doneCount b := by
  simp [doneCount, List.countP_append]

theorem errorCount_append (a b : List Resp) :
    errorCount (a ++ b) = errorCount a + errorCount b := by
  simp [errorCount, List.countP_append]

theorem doneCount_done (i : String) : doneCount [.done i] = 1 := by
  simp [doneCount]

theorem doneCount_line (i : String) (st : OutStream) (t : String) :
    doneCount [.line i st t] = 0 := by
  simp [doneCount]

theorem doneCount_error (i msg : String) : doneCount [.error i msg] = 0 := by
  simp [doneCount]

theorem errorCount_done (i : String) : errorCount [.done i] = 0 := by
  simp [errorCount]

theorem errorCount_line (i : String) (st : OutStream) (t : String) :
    errorCount [.line i st t] = 0 := by
  simp [errorCount]

theorem errorCount_error (i msg : String) : errorCount [.error i msg] = 1 := by
  simp [errorCount]

theorem markersLeft_cons (m l : String) (rest : List String) :
    markersLeft m (l :: rest)
      = markersLeft m rest + (if (strTrim l == m) = true then 1 else 0) := by
  simp [markersLeft, List.countP_cons]

theorem stepEngine_preserves_inv {id m : String} {s s2 : EngineState}
    (hinv : EngineInv id m s) (step : EngineStep)
    (h : stepEngine s step = some s2) : EngineInv id m s2 := by
  obtain ⟨hslot, hdone, herr, hclean⟩ := hinv
  obtain ⟨slot, outp, errp, phase, rid, ts, sent, pk⟩ := s
  dsimp only at hslot hdone herr hclean h
  cases step
  case readStdout =>
    cases outp with
    | nil => cases h
    | cons l rest =>
      cases slot with
      | none =>
        cases h
        refine ⟨hslot, ?_, herr, hclean⟩
        show doneCount sent + markersLeft m rest ≤ 1
        rw [markersLeft_cons] at hdone
        omega
      | some st =>
        by_cases hg : (strTrim l == st.eoe_marker) = true
        · rw [show stepEngine ⟨some st, l :: rest, errp, phase, rid, ts, sent, pk⟩ .readStdout
              = if (strTrim l == st.eoe_marker) = true then
                  some ⟨some { st with completed := true }, rest, errp, phase, rid, ts,
                    sent ++ [.done st.id], pk⟩
                else
                  some ⟨some st, rest, errp, phase, rid, ts,
                    sent ++ [.line st.id .stdout l], pk⟩ from rfl,
            if_pos hg, Option.some.injEq] at h
          subst h
          obtain ⟨hid, hmark⟩ := hslot st rfl
          have hg2 : (strTrim l == m) = true := by rw [← hmark]; exact hg
          refine ⟨?_, ?_, ?_, ?_⟩
          · intro st2 hst2
            have hst2b : some { st with completed := true } = some st2 := hst2
            rw [Option.some.injEq] at hst2b
            subst hst2b
            exact ⟨hid, hmark⟩
          · show doneCount (sent ++ [Resp.done st.id]) + markersLeft m rest ≤ 1
            rw [doneCount_append, doneCount_done]
            rw [markersLeft_cons, if_pos hg2] at hdone
            omega
          · show errorCount (sent ++ [Resp.done st.id]) + errBudget phase ≤ 1
            rw [errorCount_append, errorCount_done]
            omega
          · intro i t hmem
            have hmem2 : Resp.line i .stdout t ∈ sent ++ [Resp.done st.id] := hmem
            rw [List.mem_append] at hmem2
            rcases hmem2 with hmem2 | hmem2
            · exact hclean i t hmem2
            · simp at hmem2
        · rw [show stepEngine ⟨some st, l :: rest, errp, phase, rid, ts, sent, pk⟩ .readStdout
              = if (strTrim l == st.eoe_marker) = true then
                  some ⟨some { st with completed := true }, rest, errp, phase, rid, ts,
                    sent ++ [.done st.id], pk⟩
                else
                  some ⟨some st, rest, errp, phase, rid, ts,
                    sent ++ [.line st.id .stdout l], pk⟩ from rfl,
            if_neg hg, Option.some.injEq] at h
          subst h
          obtain ⟨hid, hmark⟩ := hslot st rfl
          refine ⟨hslot, ?_, ?_, ?_⟩
          · show doneCount (sent ++ [Resp.line st.id OutStream.stdout l]) + markersLeft m rest ≤ 1
            rw [doneCount_append, doneCount_line]
            rw [markersLeft_cons] at hdone
            omega
          · show errorCount (sent ++ [Resp.line st.id OutStream.stdout l]) + errBudget phase ≤ 1
            rw [errorCount_append, errorCount_line]
            omega
          · intro i t hmem
            have hmem2 : Resp.line i .stdout t ∈ sent ++ [Resp.line st.id .stdout l] := hmem
            rw [List.mem_append] at hmem2
            rcases hmem2 with hmem2 | hmem2
            · exact hclean i t hmem2
            · simp only [List.mem_singleton] at hmem2
              cases hmem2
              intro htr
              apply hg
              rw [hmark, htr]
              exact beq_self_eq_true m
  case readStdoutDropped =>
    cases outp with
    | nil => cases h
    | cons l rest =>
      cases slot with
      | none => cases h
      | some st =>
        by_cases hg : (strTrim l == st.eoe_marker) = true
        · rw [show stepEngine ⟨some st, l :: rest, errp, phase, rid, ts, sent, pk⟩
                .readStdoutDropped
              = if (strTrim l == st.eoe_marker) = true then none
                else some ⟨some st, rest, errp, phase, rid, ts, sent, pk⟩ from rfl,
            if_pos hg] at h
          cases h
        · rw [show stepEngine ⟨some st, l :: rest, errp, phase, rid, ts, sent, pk⟩
                .readStdoutDropped
              = if (strTrim l == st.eoe_marker) = true then none
                else some ⟨some st, rest, errp, phase, rid, ts, sent, pk⟩ from rfl,
            if_neg hg, Option.some.injEq] at h
          subst h
          refine ⟨hslot, ?_, herr, hclean⟩
          show doneCount sent + markersLeft m rest ≤ 1
          rw [markersLeft_cons] at hdone
          omega
  case readStderr =>
    cases errp with
    | nil => cases h
    | cons l rest =>
      cases slot with
      | none =>
        cases h
        exact ⟨hslot, hdone, herr, hclean⟩
      | some st =>
        cases h
        refine ⟨hslot, ?_, ?_, ?_⟩
        · show doneCount (sent ++ [Resp.line st.id OutStream.stderr l]) + markersLeft m outp ≤ 1
          rw [doneCount_append, doneCount_line]
          omega
        · show errorCount (sent ++ [Resp.line st.id OutStream.stderr l]) + errBudget phase ≤ 1
          rw [errorCount_append, errorCount_line]
          omega
        · intro i t hmem
          have hmem2 : Resp.line i .stdout t ∈ sent ++ [Resp.line st.id .stderr l] := hmem
          rw [List.mem_append] at hmem2
          rcases hmem2 with hmem2 | hmem2
          · exact hclean i t hmem2
          · simp only [List.mem_singleton] at hmem2
            cases hmem2
  case observeCompleted =>
    cases phase <;> try cases h
    case waiting =>
      cases slot with
      | none => cases h
      | some st =>
        by_cases hc : st.completed = true
        · rw [show stepEngine ⟨some st, outp, errp, .waiting, rid, ts, sent, pk⟩
                .observeCompleted
              = if st.completed = true then
                  some ⟨some st, outp, errp, .clearing (.ok ()), rid, ts, sent, pk⟩
                else none from rfl,
            if_pos hc, Option.some.injEq] at h
          subst h
          refine ⟨hslot, hdone, ?_, hclean⟩
          show errorCount sent + errBudget (LoopPhase.clearing (Except.ok ())) ≤ 1
          rw [show errBudget (LoopPhase.clearing (Except.ok ())) = 0 from rfl]
          rw [show errBudget LoopPhase.waiting = 1 from rfl] at herr
          omega
        · rw [show stepEngine ⟨some st, outp, errp, .waiting, rid, ts, sent, pk⟩
                .observeCompleted
              = if st.completed = true then
                  some ⟨some st, outp, errp, .clearing (.ok ()), rid, ts, sent, pk⟩
                else none from rfl,
            if_neg hc] at h
          cases h
  case timeoutElapsed =>
    cases phase <;> try cases h
    case waiting =>
      cases ts with
      | none => cases h
      | some n =>
        cases h
        refine ⟨hslot, hdone, ?_, hclean⟩
        show errorCount sent + errBudget LoopPhase.sendTimeoutError ≤ 1
        rw [show errBudget LoopPhase.sendTimeoutError = 1 from rfl]
        rw [show errBudget LoopPhase.waiting = 1 from rfl] at herr
        omega
  case sendErrorMsg =>
    cases phase <;> try cases h
    case sendTimeoutError =>
      cases ts with
      | none => cases h
      | some n =>
        cases h
        refine ⟨hslot, ?_, ?_, ?_⟩
        · show doneCount
              (sent ++ [Resp.error rid ("Execution timed out after " ++ toString n ++ " seconds")])
              + markersLeft m outp ≤ 1
          rw [doneCount_append, doneCount_error]
          omega
        · show errorCount
              (sent ++ [Resp.error rid ("Execution timed out after " ++ toString n ++ " seconds")])
              + errBudget (LoopPhase.clearing (Except.error (EngineError.timeout n))) ≤ 1
          rw [errorCount_append, errorCount_error,
            show errBudget (LoopPhase.clearing (Except.error (EngineError.timeout n))) = 0 from rfl]
          rw [show errBudget LoopPhase.sendTimeoutError = 1 from rfl] at herr
          omega
        · intro i t hmem
          have hmem2 : Resp.line i .stdout t
              ∈ sent ++ [Resp.error rid ("Execution timed out after " ++ toString n ++ " seconds")] := hmem
          rw [List.mem_append] at hmem2
          rcases hmem2 with hmem2 | hmem2
          · exact hclean i t hmem2
          · simp at hmem2
  case clearSlot =>
    cases phase <;> try cases h
    case clearing r =>
      refine ⟨?_, hdone, ?_, hclean⟩
      · intro st hst
        exact Option.noConfusion hst
      · show errorCount sent + errBudget (LoopPhase.finished r) ≤ 1
        rw [show errBudget (LoopPhase.finished r) = 0 from rfl]
        omega
  case shutdownBreak =>
    cases phase <;> try cases h
    case finished r =>
      exact ⟨hslot, hdone, herr, hclean⟩

theorem runSteps_preserves_inv {id m : String} (trace : List EngineStep)
    {s s' : EngineState} (hinv : EngineInv id m s)
    (h : runSteps trace s = some s') : EngineInv id m s' := by
  induction trace generalizing s with
  | nil =>
    cases h
    exact hinv
  | cons st rest ih =>
    unfold runSteps at h
    cases hst : stepEngine s st with
    | none => rw [hst] at h; cases h
    | some s2 =>
      rw [hst] at h
      exact ih (stepEngine_preserves_inv hinv st hst) h

theorem initEval_inv (id m : String) (timeout : Option Nat)
    (outLs errLs : List String) (hm : markersLeft m outLs ≤ 1) :
    EngineInv id m (initEval id m timeout outLs errLs) := by
  refine ⟨?_, ?_, ?_, ?_⟩
  · intro st hst
    have hst2 : some (⟨id, m, false⟩ : ExecutionStatus) = some st := hst
    rw [Option.some.injEq] at hst2
    subst hst2
    exact ⟨rfl, rfl⟩
  · show doneCount [] + markersLeft m outLs ≤ 1
    simpa [doneCount] using hm
  · show errorCount [] + errBudget LoopPhase.waiting ≤ 1
    simp [errorCount, errBudget]
  · intro i t hmem
    have hmem2 : Resp.line i .stdout t ∈ ([] : List Resp) := hmem
    simp at hmem2

theorem stepEngine_finished_no_sends {t s3 : EngineState} {r : Except EngineError Unit}
    (h1 : t.slot = none) (h2 : t.phase = .finished r) (step : EngineStep)
    (h : stepEngine t step = some s3) :
    s3.sent = t.sent ∧ s3.slot = none ∧ s3.phase = .finished r := by
  obtain ⟨slot, outp, errp, phase, rid, ts, sent, pk⟩ := t
  dsimp only at h1 h2 h ⊢
  subst h1
  subst h2
  cases step
  case readStdout =>
    cases outp with
    | nil => cases h
    | cons l rest =>
      cases h
      exact ⟨rfl, rfl, rfl⟩
  case readStdoutDropped =>
    cases outp with
    | nil => cases h
    | cons l rest => cases h
  case readStderr =>
    cases errp with
    | nil => cases h
    | cons l rest =>
      cases h
      exact ⟨rfl, rfl, rfl⟩
  case observeCompleted => cases h
  case timeoutElapsed =>
    cases ts with
    | none => cases h
    | some n => cases h
  case sendErrorMsg =>
    cases ts with
    | none => cases h
    | some n => cases h
  case clearSlot => cases h
  case shutdownBreak =>
    cases h
    exact ⟨rfl, rfl, rfl⟩

/-- Messages addressed to an eval id. -/
def respForId (id : String) : Resp → Bool
  | .line i _ _ => i == id
  | .done i => i == id
  | .error i _ => i == id

/-- Terminal messages (`Done` / `Error`) addressed to an eval id. -/
def isTerminalFor (id : String) : Resp → Bool
  | .done i => i == id
  | .error i _ => i == id
  | _ => false

/-- The property claim C4 asserts of the message stream of one eval: exactly
one terminal message for the id, no message for the id after that terminal,
and never both an `Error` (as after a timeout) and a `Done`. -/
def c4Property (id : String) (msgs : List Resp) : Prop :=
  msgs.countP (isTerminalFor id) = 1 ∧
  (∀ pre m post, msgs = pre ++ m :: post → isTerminalFor id m = true →
    ∀ x ∈ post, respForId id x = false) ∧
  ((∃ emsg, Resp.error id emsg ∈ msgs) → Resp.done id ∉ msgs)

/-- C4 counterexample: an admissible interleaving of the engine — timeout
fires and the handler sends `Error`; before the handler clears the slot, the
stdout reader consumes the marker line and sends `Done`, and the stderr reader
forwards a pending line.  The eval's stream then carries two terminal messages,
a `Done` for a timed-out eval, and a `Line` after a terminal, refuting the
claim as stated. -/
theorem C4_counterexample_two_terminals :
    ∃ s', runSteps [.timeoutElapsed, .sendErrorMsg, .readStdout, .readStderr, .clearSlot]
        (initEval "a" "eoe_m" (some 2) ["eoe_m"] ["boom"]) = some s' ∧
      s'.sent = [.error "a" "Execution timed out after 2 seconds", .done "a",
                 .line "a" .stderr "boom"] ∧
      ¬ c4Property "a" s'.sent := by
  refine ⟨⟨none, [], [], .finished (.error (.timeout 2)), "a", some 2,
    [.error "a" "Execution timed out after 2 seconds", .done "a",
     .line "a" .stderr "boom"], false⟩, rfl, rfl, ?_⟩
  intro hprop
  exact absurd hprop.1 (by decide)

/-- C4 (amended): on every admissible schedule of one eval whose marker occurs
at most once in the produced stdout lines, at most one `Done` and at most one
`Error` are sent, and once the handler has cleared the slot and finished no
step sends any further message; between a terminal message and the clearing of
the slot, however, further messages (a `Done` after a timeout `Error`, and
forwarded `Line`s) may still be sent. -/
theorem C4_amended_terminal_bounds (id m : String) (timeout : Option Nat)
    (outLs errLs : List String) (trace : List EngineStep) (s' : EngineState)
    (hrun : runSteps trace (initEval id m timeout outLs errLs) = some s')
    (hm : markersLeft m outLs ≤ 1) :
    doneCount s'.sent ≤ 1 ∧ errorCount s'.sent ≤ 1 ∧
    (∀ t r step s3, t.slot = none → t.phase = .finished r →
      stepEngine t step = some s3 → s3.sent = t.sent) := by
  have hinv := runSteps_preserves_inv trace (initEval_inv id m timeout outLs errLs hm) hrun
  refine ⟨?_, ?_, ?_⟩
  · have := hinv.doneBound
    omega
  · have := hinv.errBound
    omega
  · exact fun t r step s3 h1 h2 h3 => (stepEngine_finished_no_sends h1 h2 step h3).1

/-- Witness for the amended C4 on a concrete completed eval. -/
theorem C4_amended_terminal_bounds_witness :
    markersLeft "eoe_m" ["eoe_m"] ≤ 1 ∧
    (∃ s', runSteps [.readStdout, .observeCompleted, .clearSlot]
        (initEval "a" "eoe_m" none ["eoe_m"] []) = some s' ∧
      doneCount s'.sent ≤ 1 ∧ errorCount s'.sent ≤ 1) := by
  refine ⟨by decide,
    ⟨⟨none, [], [], .finished (.ok ()), "a", none, [.done "a"], false⟩, rfl, ?_, ?_⟩⟩
  · exact (C4_amended_terminal_bounds "a" "eoe_m" none ["eoe_m"] []
      [.readStdout, .observeCompleted, .clearSlot]
      ⟨none, [], [], .finished (.ok ()), "a", none, [.done "a"], false⟩ rfl (by decide)).1
  · exact (C4_amended_terminal_bounds "a" "eoe_m" none ["eoe_m"] []
      [.readStdout, .observeCompleted, .clearSlot]
      ⟨none, [], [], .finished (.ok ()), "a", none, [.done "a"], false⟩ rfl (by decide)).2.1

/-- C5: in the stdout reader, a line whose trimmed content equals the current
execution slot's end-of-execution marker is never forwarded as a `Line`
message — instead the slot's completed flag is set (and `Done` is signalled) —
and consequently, on every admissible schedule of one eval, no forwarded
stdout `Line` has trimmed text equal to the marker. -/
theorem C5_marker_never_forwarded :
    (∀ (s : EngineState) (st : ExecutionStatus) (l : String) (rest : List String),
      s.slot = some st → s.stdoutPending = l :: rest →
      (strTrim l == st.eoe_marker) = true →
      stepEngine s .readStdout
        = some { s with stdoutPending := rest,
                        slot := some { st with completed := true },
                        sent := s.sent ++ [.done st.id] }) ∧
    (∀ (id m : String) (timeout : Option Nat) (outLs errLs : List String)
        (trace : List EngineStep) (s' : EngineState),
      runSteps trace (initEval id m timeout outLs errLs) = some s' →
      markersLeft m outLs ≤ 1 →
      ∀ i t, Resp.line i OutStream.stdout t ∈ s'.sent → strTrim t ≠ m) := by
  constructor
  · intro s st l rest hsl hop hg
    obtain ⟨slot, outp, errp, phase, rid, ts, sent, pk⟩ := s
    dsimp only at hsl hop ⊢
    subst hsl
    subst hop
    rw [show stepEngine ⟨some st, l :: rest, errp, phase, rid, ts, sent, pk⟩ .readStdout
        = if (strTrim l == st.eoe_marker) = true then
            some ⟨some { st with completed := true }, rest, errp, phase, rid, ts,
              sent ++ [.done st.id], pk⟩
          else
            some ⟨some st, rest, errp, phase, rid, ts,
              sent ++ [.line st.id .stdout l], pk⟩ from rfl,
      if_pos hg]
  · intro id m timeout outLs errLs trace s' hrun hm i t hmem
    exact (runSteps_preserves_inv trace
      (initEval_inv id m timeout outLs errLs hm) hrun).stdoutClean i t hmem

/-- Witness for C5: the marker line sets the completed flag without a `Line`;
and on a run that forwards one ordinary line, that line does not trim to the
marker. -/
theorem C5_marker_never_forwarded_witness :
    (strTrim "eoe_m" == "eoe_m") = true ∧
    stepEngine (initEval "a" "eoe_m" none ["eoe_m"] []) .readStdout
      = some { initEval "a" "eoe_m" none ["eoe_m"] [] with
               stdoutPending := [],
               slot := some { id := "a", eoe_marker := "eoe_m", completed := true },
               sent := [.done "a"] } ∧
    strTrim "hi" ≠ "eoe_m" := by
  refine ⟨rfl, ?_, ?_⟩
  · exact C5_marker_never_forwarded.1 (initEval "a" "eoe_m" none ["eoe_m"] [])
      ⟨"a", "eoe_m", false⟩ "eoe_m" [] rfl rfl rfl
  · exact C5_marker_never_forwarded.2 "a" "eoe_m" none ["hi"] [] [.readStdout]
      ⟨some ⟨"a", "eoe_m", false⟩, [], [], .waiting, "a", none,
        [.line "a" .stdout "hi"], false⟩ rfl (by decide) "a" "hi" (by simp)

/-- C6: when the timeout elapses while the completion flag is still unset, the
eval handler sends `Error{id, "Execution timed out after N seconds"}`, the
execution block returns a timeout error, and the REPL process is not killed by
this path (the kill at `python.rs:332-334` runs only when the command loop
exits). -/
theorem C6_timeout_sends_error_process_left_running
    (s : EngineState) (n : Nat) (st : ExecutionStatus)
    (hph : s.phase = .waiting) (hto : s.timeoutSecs = some n)
    (hslot : s.slot = some st) (hnc : st.completed = false) :
    ∃ s', runSteps [.timeoutElapsed, .sendErrorMsg, .clearSlot] s = some s' ∧
      s'.sent = s.sent
        ++ [.error s.reqId ("Execution timed out after " ++ toString n ++ " seconds")] ∧
      s'.phase = .finished (.error (.timeout n)) ∧
      s'.slot = none ∧
      s'.processKilled = s.processKilled := by
  obtain ⟨slot, outp, errp, phase, rid, ts, sent, pk⟩ := s
  dsimp only at hph hto hslot ⊢
  subst hph
  subst hto
  exact ⟨_, rfl, rfl, rfl, rfl, rfl⟩

/-- Witness for C6 at a concrete waiting state with a 2-second timeout. -/
theorem C6_timeout_sends_error_process_left_running_witness :
    (initEval "a" "eoe_m" (some 2) [] []).phase = .waiting ∧
    ∃ s', runSteps [.timeoutElapsed, .sendErrorMsg, .clearSlot]
        (initEval "a" "eoe_m" (some 2) [] []) = some s' ∧
      s'.sent = [] ++ [.error "a" ("Execution timed out after " ++ toString 2 ++ " seconds")] ∧
      s'.phase = .finished (.error (.timeout 2)) ∧
      s'.slot = none ∧
      s'.processKilled = false :=
  ⟨rfl, C6_timeout_sends_error_process_left_running
    (initEval "a" "eoe_m" (some 2) [] []) 2 ⟨"a", "eoe_m", false⟩ rfl rfl rfl rfl⟩
